import Mathlib

/-!
Shallow embedding of the FHAT browser client (React frontend).
Each definition mirrors one function or component of the source:
the gauge color ternaries, the severity color map, the alert panels,
the results page defaulting, the legacy dashboard, and the upload
workflow handler. JavaScript numbers are modelled as an extended
rational type so that NaN and infinite inputs keep their JS
comparison semantics; JavaScript truthiness on strings is modelled
explicitly where the code uses the or operator on strings.
-/

/-- A JavaScript number as seen by the comparison operators:
a finite rational, positive or negative infinity, or NaN
(which also stands for undefined coerced by a comparison). -/
inductive JSNum where
  | num (q : ℚ)
  | posInf
  | negInf
  | nan
deriving DecidableEq

/-- JS comparison score >= c for a finite threshold constant c:
NaN compares false, positive infinity compares true,
negative infinity compares false. -/
def jsGeNum (a : JSNum) (c : ℚ) : Bool :=
  match a with
  | JSNum.num q => decide (c ≤ q)
  | JSNum.posInf => true
  | JSNum.negInf => false
  | JSNum.nan => false

/-- Number.isFinite: true exactly on finite numerics. -/
def isFiniteJS : JSNum → Bool
  | JSNum.num _ => true
  | _ => false

/-- JS chained string or: first operand that is truthy
(present and not the empty string), else none. -/
def firstTruthy : List (Option String) → Option String
  | [] => none
  | o :: rest =>
    match o with
    | none => firstTruthy rest
    | some s => if s = "" then firstTruthy rest else some s

/-- JS numeric or-with-zero fallback (value || 0): zero is falsy,
so an absent value and a zero value both give zero. -/
def jsOrZeroQ : Option ℚ → ℚ
  | none => 0
  | some q => if q = 0 then 0 else q

/-- getSeverityColor from FraudPanel.jsx and WarningPanel: exact match
on Critical, High, Medium, with an unconditional blue default. -/
def getSeverityColor (severity : String) : String :=
  if severity = "Critical" then "#ef4444"
  else if severity = "High" then "#dc2626"
  else if severity = "Medium" then "#f59e0b"
  else "#3b82f6"

/-- getColor from ESGCard.jsx: ESG score to color. -/
def getColor (score : JSNum) : String :=
  if jsGeNum score 80 then "#22c55e"
  else if jsGeNum score 65 then "#3b82f6"
  else if jsGeNum score 50 then "#f59e0b"
  else "#ef4444"

/-- The risk score color ternary from RiskGauge (fill and heading color). -/
def riskGaugeColor (score : JSNum) : String :=
  if jsGeNum score 750 then "#28a745"
  else if jsGeNum score 600 then "#fd7e14"
  else "#dc3545"

/-- The investor readiness color ternary from InvestorGauge. -/
def investorGaugeColor (score : JSNum) : String :=
  if jsGeNum score 80 then "#28a745"
  else if jsGeNum score 60 then "#007bff"
  else if jsGeNum score 40 then "#fd7e14"
  else "#dc3545"

/-- The survival score color ternary from SurvivalGauge. -/
def survivalGaugeColor (score : JSNum) : String :=
  if jsGeNum score 70 then "#28a745"
  else if jsGeNum score 50 then "#fd7e14"
  else "#dc3545"

/-- The survival score label ternary from SurvivalGauge. -/
def survivalGaugeLabel (score : JSNum) : String :=
  if jsGeNum score 70 then "Stable"
  else if jsGeNum score 50 then "Watch Closely"
  else "High Risk"

/-- One fraud flag or warning entry of the wire payload; message and
description may each be absent. -/
structure AlertFlag where
  type : String
  severity : String
  message : Option String
  description : Option String
deriving DecidableEq

/-- One rendered alert row: heading text, severity badge text and color,
and the body text (message falling back to description by JS or). -/
structure AlertEntry where
  title : String
  severityText : String
  color : String
  body : Option String
deriving DecidableEq

/-- What an alert panel renders: the all-clear card (heading plus a green
confirmation line) or one alert row per flag. -/
inductive AlertPanelView where
  | allClear (heading confirmation : String)
  | alerts (heading : String) (entries : List AlertEntry)
deriving DecidableEq

/-- The alert row built for one flag inside the map of FraudPanel and
WarningPanel. -/
def mkAlertEntry (flag : AlertFlag) : AlertEntry :=
  { title := flag.type
    severityText := flag.severity
    color := getSeverityColor flag.severity
    body := firstTruthy [flag.message, flag.description] }

/-- FraudPanel from FraudPanel.jsx: a missing or empty flag list renders
the all-clear card, otherwise one alert per flag. -/
def FraudPanel (fraud : Option (List AlertFlag)) : AlertPanelView :=
  match fraud with
  | none => AlertPanelView.allClear "Fraud Detection" "✅ No fraud risks detected"
  | some [] => AlertPanelView.allClear "Fraud Detection" "✅ No fraud risks detected"
  | some flags => AlertPanelView.alerts "Fraud & Anomaly Alerts" (flags.map mkAlertEntry)

/-- WarningPanel from the unnamed source file: same structure as
FraudPanel with its own headings. -/
def WarningPanel (warnings : Option (List AlertFlag)) : AlertPanelView :=
  match warnings with
  | none => AlertPanelView.allClear "Early Warning System" "✅ No active financial warnings"
  | some [] => AlertPanelView.allClear "Early Warning System" "✅ No active financial warnings"
  | some warns => AlertPanelView.alerts "Early Warning Alerts" (warns.map mkAlertEntry)

/-- The esg object destructured by ESGCard. -/
structure EsgData where
  score : JSNum
  category : Option String
  breakdown : Option (ℚ × ℚ × ℚ)
deriving DecidableEq

/-- What ESGCard renders when the esg prop is present. -/
structure EsgView where
  scoreValue : JSNum
  scoreColor : String
  category : Option String
  breakdown : Option (ℚ × ℚ × ℚ)
deriving DecidableEq

/-- ESGCard from ESGCard.jsx: a falsy esg prop renders nothing (null),
otherwise the card with the classified score color. -/
def ESGCard (esg : Option EsgData) : Option EsgView :=
  match esg with
  | none => none
  | some e => some
      { scoreValue := e.score
        scoreColor := getColor e.score
        category := e.category
        breakdown := e.breakdown }

/-- AISummary from the unnamed source file: a falsy summary (absent,
null, or the empty string) renders nothing, otherwise the summary
split into one paragraph per line. -/
def AISummary (summary : Option String) : Option (List String) :=
  match summary with
  | none => none
  | some s => if s = "" then none else some (s.splitOn "\n")

/-- A score object of the wire payload: score and category keys,
each possibly absent. -/
structure RawScoreCat where
  score : Option ℚ
  category : Option String
deriving DecidableEq

/-- The cashflow object of the wire payload. -/
structure RawCashflow where
  net_cash_flow : Option ℚ
  liquidity_status : Option String
deriving DecidableEq

/-- The working_capital object of the wire payload. -/
structure RawWorkingCapital where
  working_capital : Option ℚ
  status : Option String
deriving DecidableEq

/-- The compliance object of the wire payload. -/
structure RawCompliance where
  compliance_score : Option ℚ
deriving DecidableEq

/-- The benchmarking object: ResultsPage reads percentile_rank,
the legacy Dashboard reads industry_percentile. -/
structure RawBenchmarking where
  percentile_rank : Option ℚ
  industry_percentile : Option ℚ
deriving DecidableEq

/-- One item of forecast.revenue_forecast.future. -/
structure RawChartItem where
  period : Option String
  value : Option ℚ
deriving DecidableEq

/-- The nested revenue_forecast object. -/
structure RawRevenueForecast where
  future : Option (List RawChartItem)
deriving DecidableEq

/-- The forecast object: flat next-period numbers (ResultsPage) and the
nested future series (Dashboard). -/
structure RawForecast where
  next_revenue_forecast : Option ℚ
  next_expense_forecast : Option ℚ
  revenue_forecast : Option RawRevenueForecast
deriving DecidableEq

/-- One product entry when product_recommendations is an array. -/
structure RawProduct where
  name : Option String
deriving DecidableEq

/-- The two divergent wire shapes of product_recommendations: an array
of products (Dashboard) or a single object with recommended_product
and reason (ResultsPage). -/
inductive RawProductRecs where
  | arr (items : List RawProduct)
  | obj (recommended_product : Option String) (reason : Option String)
deriving DecidableEq

/-- Reading the recommended_product key: undefined on the array shape. -/
def RawProductRecs.recommendedProduct : RawProductRecs → Option String
  | RawProductRecs.arr _ => none
  | RawProductRecs.obj rp _ => rp

/-- Reading the reason key: undefined on the array shape. -/
def RawProductRecs.reasonField : RawProductRecs → Option String
  | RawProductRecs.arr _ => none
  | RawProductRecs.obj _ r => r

/-- Reading the length key: undefined on the object shape, so the
Dashboard length > 0 test is false there. -/
def RawProductRecs.lengthPositive : RawProductRecs → Bool
  | RawProductRecs.arr items => decide (0 < items.length)
  | RawProductRecs.obj _ _ => false

/-- The raw analysis payload as the results views read it: every key
may be absent. -/
structure RawPayload where
  risk : Option RawScoreCat
  investor : Option RawScoreCat
  esg : Option RawScoreCat
  survival_score : Option ℚ
  cashflow : Option RawCashflow
  working_capital : Option RawWorkingCapital
  compliance : Option RawCompliance
  benchmarking : Option RawBenchmarking
  forecast : Option RawForecast
  product_recommendations : Option RawProductRecs
  ai_summary : Option String
deriving DecidableEq

/-- The empty wire payload (an analysis response with no keys). -/
def emptyPayload : RawPayload :=
  { risk := none
    investor := none
    esg := none
    survival_score := none
    cashflow := none
    working_capital := none
    compliance := none
    benchmarking := none
    forecast := none
    product_recommendations := none
    ai_summary := none }

/-- What the ResultsPage grid renders: every card value after the
nullish-coalescing defaults of the source. -/
structure ResultsGrid where
  riskScore : ℚ
  riskCategory : String
  investorScore : ℚ
  investorCategory : String
  esgScore : ℚ
  esgCategory : String
  survivalScore : ℚ
  netCashFlow : ℚ
  liquidityStatus : String
  workingCapital : ℚ
  workingCapitalStatus : String
  complianceScore : ℚ
  industryPercentile : ℚ
  productName : String
  productReason : String
  forecastRevenue : ℚ
  forecastExpense : ℚ
  aiSummaryText : String
deriving DecidableEq

/-- The ResultsPage card grid from the unnamed source file: each value
is the optional chain into the payload with the ?? default of the
source (0 for numerics, empty string for categories, N/A for the
recommended product). -/
def presentResults (p : RawPayload) : ResultsGrid :=
  { riskScore := ((p.risk.bind RawScoreCat.score).getD 0)
    riskCategory := ((p.risk.bind RawScoreCat.category).getD "")
    investorScore := ((p.investor.bind RawScoreCat.score).getD 0)
    investorCategory := ((p.investor.bind RawScoreCat.category).getD "")
    esgScore := ((p.esg.bind RawScoreCat.score).getD 0)
    esgCategory := ((p.esg.bind RawScoreCat.category).getD "")
    survivalScore := (p.survival_score.getD 0)
    netCashFlow := ((p.cashflow.bind RawCashflow.net_cash_flow).getD 0)
    liquidityStatus := ((p.cashflow.bind RawCashflow.liquidity_status).getD "")
    workingCapital := ((p.working_capital.bind RawWorkingCapital.working_capital).getD 0)
    workingCapitalStatus := ((p.working_capital.bind RawWorkingCapital.status).getD "")
    complianceScore := ((p.compliance.bind RawCompliance.compliance_score).getD 0)
    industryPercentile := ((p.benchmarking.bind RawBenchmarking.percentile_rank).getD 0)
    productName := ((p.product_recommendations.bind RawProductRecs.recommendedProduct).getD "N/A")
    productReason := ((p.product_recommendations.bind RawProductRecs.reasonField).getD "")
    forecastRevenue := ((p.forecast.bind RawForecast.next_revenue_forecast).getD 0)
    forecastExpense := ((p.forecast.bind RawForecast.next_expense_forecast).getD 0)
    aiSummaryText := (p.ai_summary.getD "") }

/-- What the ResultsPage route renders: the loading paragraph while no
analysis is set, or the grid. -/
inductive ResultsRender where
  | loadingText
  | grid (g : ResultsGrid)
deriving DecidableEq

/-- True exactly when a ResultsRender is the card grid. -/
def isGridRender : ResultsRender → Bool
  | ResultsRender.loadingText => false
  | ResultsRender.grid _ => true

/-- The ResultsPage render guard: null analysis state renders the
loading paragraph, a set analysis renders the grid. -/
def resultsPageView (analysisState : Option RawPayload) : ResultsRender :=
  match analysisState with
  | none => ResultsRender.loadingText
  | some a => ResultsRender.grid (presentResults a)

/-- The ResultsPage effect on mount: with no stored analysis it
navigates to the upload route, otherwise it stays. -/
def resultsNavigation (stored : Option RawPayload) : Option String :=
  match stored with
  | none => some "/"
  | some _ => none

/-- One point of the Dashboard forecast chart, projected from a future
item (period and value keys may be absent in the raw item). -/
structure ChartPoint where
  period : Option String
  revenue : Option ℚ
deriving DecidableEq

/-- The Dashboard products section: one card per product of the array,
or the no-recommendations paragraph. -/
inductive DashProducts where
  | cards (items : List RawProduct)
  | noneMessage
deriving DecidableEq

/-- What the legacy Dashboard metric grid renders: the optional chains
of the source carry no numeric default except the percentile, so an
absent score stays absent (a blank card), not zero. -/
structure DashboardGrid where
  riskScore : Option ℚ
  riskCategory : Option String
  investorScore : Option ℚ
  investorCategory : Option String
  esgScore : Option ℚ
  esgCategory : Option String
  survivalScore : Option ℚ
  netCashFlow : Option ℚ
  workingCapital : Option ℚ
  complianceScore : Option ℚ
  industryPercentile : ℚ
  forecastData : List ChartPoint
  products : DashProducts
  aiSummaryText : Option String
deriving DecidableEq

/-- The legacy Dashboard from the second document of UploadPage.jsx:
card values are bare optional chains, the percentile uses the JS
or-zero fallback, the forecast series maps the nested future list with
an or-empty fallback, and the products section switches on a positive
array length. -/
def dashboardMetrics (data : RawPayload) : DashboardGrid :=
  { riskScore := data.risk.bind RawScoreCat.score
    riskCategory := data.risk.bind RawScoreCat.category
    investorScore := data.investor.bind RawScoreCat.score
    investorCategory := data.investor.bind RawScoreCat.category
    esgScore := data.esg.bind RawScoreCat.score
    esgCategory := data.esg.bind RawScoreCat.category
    survivalScore := data.survival_score
    netCashFlow := data.cashflow.bind RawCashflow.net_cash_flow
    workingCapital := data.working_capital.bind RawWorkingCapital.working_capital
    complianceScore := data.compliance.bind RawCompliance.compliance_score
    industryPercentile := jsOrZeroQ (data.benchmarking.bind RawBenchmarking.industry_percentile)
    forecastData :=
      (((data.forecast.bind RawForecast.revenue_forecast).bind RawRevenueForecast.future).map
        (List.map fun item => ChartPoint.mk item.period item.value)).getD []
    products :=
      match data.product_recommendations with
      | some recs =>
        match recs with
        | RawProductRecs.arr items =>
          if 0 < items.length then DashProducts.cards items else DashProducts.noneMessage
        | RawProductRecs.obj _ _ => DashProducts.noneMessage
      | none => DashProducts.noneMessage
    aiSummaryText := data.ai_summary }

/-- The file chosen in the upload form. -/
structure UploadFile where
  name : String
deriving DecidableEq

/-- The error object a failed axios call throws: the optional
response body detail and message keys, and the error message of the
error object itself. -/
structure JSError where
  responseDetail : Option String
  responseMessage : Option String
  message : Option String
deriving DecidableEq

/-- The alert text of the catch block of handleUpload: the JS or chain
over response detail, response message and error message (empty
strings are falsy and fall through), ending at the generic fallback. -/
def errorDetail (e : JSError) : String :=
  (firstTruthy [e.responseDetail, e.responseMessage, e.message]).getD
    "Upload or analysis failed."

/-- Everything observable about one handleUpload invocation: the alert
text if any, the loading flag afterwards, the stored analysis
afterwards, the navigation target if any, and which service calls
were issued. -/
structure UploadOutcome where
  alerted : Option String
  finalLoading : Bool
  stored : Option String
  navigatedTo : Option String
  uploadCalled : Bool
  analyzeCalled : Bool
deriving DecidableEq

/-- handleUpload from UploadPage.jsx, as a function of the prior
loading flag, the chosen file, the two service results (upload, then
analyze with its JSON response serialized), and the prior stored
analysis. The source never reads the loading flag: there is no
in-flight guard, only the missing-file guard, which alerts and
returns before any state change or network call. -/
def handleUpload (loading0 : Bool) (file : Option UploadFile)
    (uploadResult : Except JSError Unit) (analyzeResult : Except JSError String)
    (stored0 : Option String) : UploadOutcome :=
  match file with
  | none =>
    { alerted := some "Please select a file."
      finalLoading := loading0
      stored := stored0
      navigatedTo := none
      uploadCalled := false
      analyzeCalled := false }
  | some _ =>
    match uploadResult with
    | Except.error e =>
      { alerted := some (errorDetail e)
        finalLoading := false
        stored := stored0
        navigatedTo := none
        uploadCalled := true
        analyzeCalled := false }
    | Except.ok _ =>
      match analyzeResult with
      | Except.error e =>
        { alerted := some (errorDetail e)
          finalLoading := false
          stored := stored0
          navigatedTo := none
          uploadCalled := true
          analyzeCalled := true }
      | Except.ok data =>
        { alerted := none
          finalLoading := false
          stored := some data
          navigatedTo := some "/results"
          uploadCalled := true
          analyzeCalled := true }

/-- The submit button of UploadPage is disabled exactly while loading
(the only re-entrancy protection in the source). -/
def uploadButtonDisabled (loading : Bool) : Bool := loading

/-- C2: risk classification is inclusive at the threshold edge: every
value at or above 750 lands in the green tier, values in [600, 750)
in the orange tier, values below 600 in the red tier; 750 and 10000
get the same color, while 749.999 gets a different color than 750. -/
theorem risk_threshold_inclusive :
    (∀ v : ℚ, (750 ≤ v → riskGaugeColor (JSNum.num v) = "#28a745")
      ∧ (600 ≤ v → v < 750 → riskGaugeColor (JSNum.num v) = "#fd7e14")
      ∧ (v < 600 → riskGaugeColor (JSNum.num v) = "#dc3545"))
    ∧ riskGaugeColor (JSNum.num 750) = riskGaugeColor (JSNum.num 10000)
    ∧ (decide (riskGaugeColor (JSNum.num (749999/1000)) = riskGaugeColor (JSNum.num 750))) = false := by
  refine ⟨fun v => ⟨?_, ?_, ?_⟩, by decide, ?_⟩
  · intro h
    simp [riskGaugeColor, jsGeNum, h]
  · intro h6 h7
    simp [riskGaugeColor, jsGeNum, h6, not_le.mpr h7]
  · intro h
    have h7 : v < 750 := lt_of_lt_of_le h (by norm_num)
    simp [riskGaugeColor, jsGeNum, not_le.mpr h, not_le.mpr h7]
  · have h7 : ¬ (750:ℚ) ≤ 749999/1000 := by norm_num
    have h6 : (600:ℚ) ≤ 749999/1000 := by norm_num
    have e1 : riskGaugeColor (JSNum.num (749999/1000)) = "#fd7e14" := by
      simp [riskGaugeColor, jsGeNum, h6, h7]
    have e2 : riskGaugeColor (JSNum.num 750) = "#28a745" := by decide
    rw [e1, e2]
    decide

/-- Witness for C2 at concrete scores in each tier. -/
theorem risk_threshold_inclusive_witness :
    riskGaugeColor (JSNum.num 800) = "#28a745"
    ∧ riskGaugeColor (JSNum.num 650) = "#fd7e14"
    ∧ riskGaugeColor (JSNum.num 100) = "#dc3545" :=
  ⟨(risk_threshold_inclusive.1 800).1 (by norm_num),
   (risk_threshold_inclusive.1 650).2.1 (by norm_num) (by norm_num),
   (risk_threshold_inclusive.1 100).2.2 (by norm_num)⟩

/-- C3 counterexample: positive infinity is not a finite number, yet
it satisfies the top threshold comparison and classifies into the top
tier color, not the color of the lowest tier, both for the ESG
classifier and the investor classifier. -/
theorem nonfinite_top_tier_counterexample :
    isFiniteJS JSNum.posInf = false
    ∧ getColor JSNum.posInf = "#22c55e"
    ∧ (decide (getColor JSNum.posInf = "#ef4444")) = false
    ∧ investorGaugeColor JSNum.posInf = "#28a745"
    ∧ (decide (investorGaugeColor JSNum.posInf = "#dc3545")) = false := by decide

/-- C3 amended: NaN (including undefined coerced to NaN by the
comparison) and negative infinity fall through every threshold
comparison to the color of the lowest tier without failing, for
every numeric-threshold classifier; positive infinity instead
satisfies the top comparison and gets the top tier color. -/
theorem nonfinite_score_classification :
    riskGaugeColor JSNum.nan = "#dc3545"
    ∧ riskGaugeColor JSNum.negInf = "#dc3545"
    ∧ riskGaugeColor JSNum.posInf = "#28a745"
    ∧ investorGaugeColor JSNum.nan = "#dc3545"
    ∧ investorGaugeColor JSNum.negInf = "#dc3545"
    ∧ investorGaugeColor JSNum.posInf = "#28a745"
    ∧ getColor JSNum.nan = "#ef4444"
    ∧ getColor JSNum.negInf = "#ef4444"
    ∧ getColor JSNum.posInf = "#22c55e"
    ∧ survivalGaugeColor JSNum.nan = "#dc3545"
    ∧ survivalGaugeColor JSNum.negInf = "#dc3545"
    ∧ survivalGaugeColor JSNum.posInf = "#28a745"
    ∧ survivalGaugeLabel JSNum.nan = "High Risk" := by decide

/-- C4: the severity map sends Critical, High and Medium each to its
own distinct color by exact match, everything else (including Low)
to the same default blue, and it is total: every input gets one of
the four colors. -/
theorem severity_color_mapping :
    getSeverityColor "Critical" = "#ef4444"
    ∧ getSeverityColor "High" = "#dc2626"
    ∧ getSeverityColor "Medium" = "#f59e0b"
    ∧ getSeverityColor "Low" = "#3b82f6"
    ∧ (decide (("#ef4444" : String) = "#dc2626")) = false
    ∧ (decide (("#ef4444" : String) = "#f59e0b")) = false
    ∧ (decide (("#dc2626" : String) = "#f59e0b")) = false
    ∧ (decide (("#ef4444" : String) = "#3b82f6")) = false
    ∧ (decide (("#dc2626" : String) = "#3b82f6")) = false
    ∧ (decide (("#f59e0b" : String) = "#3b82f6")) = false
    ∧ (∀ s : String, s ≠ "Critical" → s ≠ "High" → s ≠ "Medium" →
        getSeverityColor s = "#3b82f6")
    ∧ (∀ s : String, getSeverityColor s = "#ef4444" ∨ getSeverityColor s = "#dc2626"
        ∨ getSeverityColor s = "#f59e0b" ∨ getSeverityColor s = "#3b82f6") := by
  refine ⟨by decide, by decide, by decide, by decide, by decide, by decide, by decide,
    by decide, by decide, by decide, ?_, ?_⟩
  · intro s h1 h2 h3
    simp [getSeverityColor, h1, h2, h3]
  · intro s
    by_cases h1 : s = "Critical"
    · exact Or.inl (by simp [getSeverityColor, h1])
    · by_cases h2 : s = "High"
      · exact Or.inr (Or.inl (by simp [getSeverityColor, h1, h2]))
      · by_cases h3 : s = "Medium"
        · exact Or.inr (Or.inr (Or.inl (by simp [getSeverityColor, h1, h2, h3])))
        · exact Or.inr (Or.inr (Or.inr (by simp [getSeverityColor, h1, h2, h3])))

/-- Witness for C4 at a concrete unrecognized severity string. -/
theorem severity_color_mapping_witness :
    getSeverityColor "Unknown" = "#3b82f6" := by
  obtain ⟨-, -, -, -, -, -, -, -, -, -, hdef, -⟩ := severity_color_mapping
  exact hdef "Unknown" (by decide) (by decide) (by decide)

/-- C5 counterexample: the all-clear view produced for an empty flag
list is identical to the view produced for an absent input, for both
panels, so it is not distinct from the absent or unloaded state. -/
theorem all_clear_not_distinct_counterexample :
    FraudPanel (some []) = FraudPanel none
    ∧ WarningPanel (some []) = WarningPanel none := ⟨rfl, rfl⟩

/-- C5 amended: an empty flag list yields the explicit all-clear
confirmation view, and an absent input yields that same view (the
panels do not distinguish empty from absent); every non-empty list
yields one alert entry per element. -/
theorem empty_alerts_all_clear :
    FraudPanel (some []) =
      AlertPanelView.allClear "Fraud Detection" "✅ No fraud risks detected"
    ∧ FraudPanel none = FraudPanel (some [])
    ∧ WarningPanel (some []) =
      AlertPanelView.allClear "Early Warning System" "✅ No active financial warnings"
    ∧ WarningPanel none = WarningPanel (some [])
    ∧ (∀ flags : List AlertFlag, flags ≠ [] →
        FraudPanel (some flags) =
          AlertPanelView.alerts "Fraud & Anomaly Alerts" (flags.map mkAlertEntry)
        ∧ (flags.map mkAlertEntry).length = flags.length)
    ∧ (∀ warns : List AlertFlag, warns ≠ [] →
        WarningPanel (some warns) =
          AlertPanelView.alerts "Early Warning Alerts" (warns.map mkAlertEntry)
        ∧ (warns.map mkAlertEntry).length = warns.length) := by
  refine ⟨rfl, rfl, rfl, rfl, ?_, ?_⟩
  · intro flags h
    cases flags with
    | nil => exact absurd rfl h
    | cons f rest => exact ⟨rfl, by simp⟩
  · intro warns h
    cases warns with
    | nil => exact absurd rfl h
    | cons w rest => exact ⟨rfl, by simp⟩

/-- Witness for C5 at a concrete one-flag list. -/
theorem empty_alerts_all_clear_witness :
    FraudPanel (some [⟨"Liquidity", "Critical", some "Cash reserves below 1 month", none⟩]) =
      AlertPanelView.alerts "Fraud & Anomaly Alerts"
        [⟨"Liquidity", "Critical", "#ef4444", some "Cash reserves below 1 month"⟩] := by
  have h := (empty_alerts_all_clear.2.2.2.2.1
    [⟨"Liquidity", "Critical", some "Cash reserves below 1 month", none⟩] (by decide)).1
  rw [h]
  rfl

/-- C10: an absent or null esg prop makes ESGCard render nothing, and
an absent or null summary makes AISummary render nothing; with a
present esg object the card is rendered, and with a non-empty summary
string the summary is rendered. -/
theorem missing_esg_summary_hidden :
    ESGCard none = none
    ∧ AISummary none = none
    ∧ (∀ e : EsgData, (ESGCard (some e)).isSome = true)
    ∧ (∀ s : String, s ≠ "" → (AISummary (some s)).isSome = true) := by
  refine ⟨rfl, rfl, fun e => rfl, ?_⟩
  intro s h
  simp [AISummary, h]

/-- Witness for C10 at concrete present inputs. -/
theorem missing_esg_summary_hidden_witness :
    (AISummary (some "Revenue is growing.")).isSome = true
    ∧ (ESGCard (some ⟨JSNum.num 70, some "Moderate", none⟩)).isSome = true :=
  ⟨missing_esg_summary_hidden.2.2.2 "Revenue is growing." (by decide),
   missing_esg_summary_hidden.2.2.1 ⟨JSNum.num 70, some "Moderate", none⟩⟩

/-- C1 counterexample: presenting the empty payload through the legacy
Dashboard leaves the risk score card value absent (a blank card), so
that numeric panel value is not 0. -/
theorem dashboard_blank_counterexample :
    (dashboardMetrics emptyPayload).riskScore = none
    ∧ (decide ((dashboardMetrics emptyPayload).riskScore = some (0:ℚ))) = false
    ∧ (dashboardMetrics emptyPayload).investorScore = none
    ∧ (dashboardMetrics emptyPayload).survivalScore = none := by decide

/-- C1 amended: presenting the empty payload never fails in either
results view; in ResultsPage every absent numeric field is presented
as 0, every absent string as the empty string and the product as N/A,
while in the legacy Dashboard only the forecast series defaults to
the empty sequence and the percentile to 0 — the remaining absent
numeric card values stay absent (blank) rather than 0. -/
theorem empty_payload_defaults :
    presentResults emptyPayload =
      { riskScore := 0
        riskCategory := ""
        investorScore := 0
        investorCategory := ""
        esgScore := 0
        esgCategory := ""
        survivalScore := 0
        netCashFlow := 0
        liquidityStatus := ""
        workingCapital := 0
        workingCapitalStatus := ""
        complianceScore := 0
        industryPercentile := 0
        productName := "N/A"
        productReason := ""
        forecastRevenue := 0
        forecastExpense := 0
        aiSummaryText := "" }
    ∧ dashboardMetrics emptyPayload =
      { riskScore := none
        riskCategory := none
        investorScore := none
        investorCategory := none
        esgScore := none
        esgCategory := none
        survivalScore := none
        netCashFlow := none
        workingCapital := none
        complianceScore := none
        industryPercentile := 0
        forecastData := []
        products := DashProducts.noneMessage
        aiSummaryText := none } :=
  ⟨rfl, rfl⟩

/-- C9: with no committed analysis the results page view is the loading
paragraph (never the card grid) and the mount effect navigates back
to the upload route; with a committed analysis there is no redirect
and the grid is rendered from that snapshot. -/
theorem absent_snapshot_redirects :
    resultsNavigation none = some "/"
    ∧ resultsPageView none = ResultsRender.loadingText
    ∧ isGridRender (resultsPageView none) = false
    ∧ (∀ a : RawPayload, resultsNavigation (some a) = none
        ∧ resultsPageView (some a) = ResultsRender.grid (presentResults a)) :=
  ⟨rfl, rfl, rfl, fun _ => ⟨rfl, rfl⟩⟩

/-- Witness for C9 at the concrete empty payload snapshot. -/
theorem absent_snapshot_redirects_witness :
    resultsNavigation (some emptyPayload) = none
    ∧ resultsPageView (some emptyPayload) =
      ResultsRender.grid (presentResults emptyPayload) :=
  absent_snapshot_redirects.2.2.2 emptyPayload

/-- C6 counterexample: the guard message for a missing file is
"Please select a file.", not "no file selected". -/
theorem no_file_message_counterexample :
    (handleUpload false none (Except.ok ()) (Except.ok "analysis-json") none).alerted
      = some "Please select a file."
    ∧ (decide ((handleUpload false none (Except.ok ()) (Except.ok "analysis-json") none).alerted
        = some "no file selected")) = false := by decide

/-- C6 amended: a submit invocation with no file selected fails
immediately with the validation alert "Please select a file.", the
loading flag and stored analysis are unchanged, no navigation occurs,
and neither the upload nor the analyze call is issued. -/
theorem no_file_guard :
    ∀ (loading0 : Bool) (u : Except JSError Unit) (a : Except JSError String)
      (s0 : Option String),
      handleUpload loading0 none u a s0 =
        { alerted := some "Please select a file."
          finalLoading := loading0
          stored := s0
          navigatedTo := none
          uploadCalled := false
          analyzeCalled := false } :=
  fun _ _ _ _ => rfl

/-- Witness for C6 at a concrete invocation. -/
theorem no_file_guard_witness :
    handleUpload false none (Except.ok ()) (Except.ok "analysis-json") none =
      { alerted := some "Please select a file."
        finalLoading := false
        stored := none
        navigatedTo := none
        uploadCalled := false
        analyzeCalled := false } :=
  no_file_guard false (Except.ok ()) (Except.ok "analysis-json") none

/-- C7 counterexample: when the service reports no detail and no
message but the thrown error carries its own message (for example a
network error), the surfaced text is that error message, which is
neither a service-reported string nor the generic fallback. -/
theorem failure_message_counterexample :
    (handleUpload false (some ⟨"report.csv"⟩)
        (Except.error ⟨none, none, some "Network Error"⟩)
        (Except.ok "analysis-json") none).alerted = some "Network Error"
    ∧ JSError.responseDetail ⟨none, none, some "Network Error"⟩ = none
    ∧ JSError.responseMessage ⟨none, none, some "Network Error"⟩ = none
    ∧ (decide (("Network Error" : String) = "Upload or analysis failed.")) = false := by
  decide

/-- C7 amended: whenever the upload or the analyze call fails, the
stored analysis is unchanged, no navigation to results occurs, and
the surfaced alert is the first non-empty string among the service
detail, the service message and the message of the error itself,
with the generic fallback only when all three are absent or empty
(an empty string falls through rather than being surfaced). -/
theorem failure_leaves_store_unchanged :
    ∀ (l : Bool) (f : UploadFile) (e : JSError) (a : Except JSError String)
      (s0 : Option String),
      ((handleUpload l (some f) (Except.error e) a s0).stored = s0
        ∧ (handleUpload l (some f) (Except.error e) a s0).navigatedTo = none
        ∧ (handleUpload l (some f) (Except.error e) a s0).alerted = some (errorDetail e))
      ∧ ((handleUpload l (some f) (Except.ok ()) (Except.error e) s0).stored = s0
        ∧ (handleUpload l (some f) (Except.ok ()) (Except.error e) s0).navigatedTo = none
        ∧ (handleUpload l (some f) (Except.ok ()) (Except.error e) s0).alerted
          = some (errorDetail e))
      ∧ (∀ d, e.responseDetail = some d → d ≠ "" → errorDetail e = d)
      ∧ ((e.responseDetail = none ∨ e.responseDetail = some "") →
          ∀ m, e.responseMessage = some m → m ≠ "" → errorDetail e = m)
      ∧ ((e.responseDetail = none ∨ e.responseDetail = some "") →
          (e.responseMessage = none ∨ e.responseMessage = some "") →
          ∀ m, e.message = some m → m ≠ "" → errorDetail e = m)
      ∧ ((e.responseDetail = none ∨ e.responseDetail = some "") →
          (e.responseMessage = none ∨ e.responseMessage = some "") →
          (e.message = none ∨ e.message = some "") →
          errorDetail e = "Upload or analysis failed.") := by
  intro l f e a s0
  refine ⟨⟨rfl, rfl, rfl⟩, ⟨rfl, rfl, rfl⟩, ?_, ?_, ?_, ?_⟩
  · intro d hd hne
    simp [errorDetail, firstTruthy, hd, hne]
  · intro h1 m hm hne
    rcases h1 with h1 | h1 <;> simp [errorDetail, firstTruthy, h1, hm, hne]
  · intro h1 h2 m hm hne
    rcases h1 with h1 | h1 <;> rcases h2 with h2 | h2 <;>
      simp [errorDetail, firstTruthy, h1, h2, hm, hne]
  · intro h1 h2 h3
    rcases h1 with h1 | h1 <;> rcases h2 with h2 | h2 <;> rcases h3 with h3 | h3 <;>
      simp [errorDetail, firstTruthy, h1, h2, h3]

/-- Witness for C7: an analyze failure reporting a detail string
surfaces that string verbatim and leaves the store unchanged. -/
theorem failure_leaves_store_unchanged_witness :
    (handleUpload false (some ⟨"report.csv"⟩) (Except.ok ())
        (Except.error ⟨some "model unavailable", none, none⟩) none).alerted
      = some "model unavailable"
    ∧ (handleUpload false (some ⟨"report.csv"⟩) (Except.ok ())
        (Except.error ⟨some "model unavailable", none, none⟩) none).stored = none := by
  have h := failure_leaves_store_unchanged false ⟨"report.csv"⟩
    ⟨some "model unavailable", none, none⟩ (Except.ok "analysis-json") none
  refine ⟨?_, h.2.1.1⟩
  rw [h.2.1.2.2, h.2.2.1 "model unavailable" rfl (by decide)]

/-- C8 counterexample: a submit invocation made while the loading flag
is set (an operation in flight) is not rejected: it surfaces no
error, issues the upload call and the analyze call anyway. -/
theorem inflight_submit_counterexample :
    (handleUpload true (some ⟨"report.csv"⟩) (Except.ok ())
        (Except.ok "analysis-json") none).uploadCalled = true
    ∧ (handleUpload true (some ⟨"report.csv"⟩) (Except.ok ())
        (Except.ok "analysis-json") none).analyzeCalled = true
    ∧ (handleUpload true (some ⟨"report.csv"⟩) (Except.ok ())
        (Except.ok "analysis-json") none).alerted = none := by decide

/-- C8 amended: re-entrant submission is prevented only at the UI
boundary, by disabling the submit button exactly while loading; the
submit handler itself never consults the loading flag — with a file
selected it behaves identically whether or not an operation is in
flight, and in particular it issues the upload call. -/
theorem inflight_guard_is_button_only :
    uploadButtonDisabled true = true
    ∧ uploadButtonDisabled false = false
    ∧ (∀ (f : UploadFile) (u : Except JSError Unit) (a : Except JSError String)
        (s0 : Option String),
        handleUpload true (some f) u a s0 = handleUpload false (some f) u a s0)
    ∧ (∀ (f : UploadFile) (u : Except JSError Unit) (a : Except JSError String)
        (s0 : Option String),
        (handleUpload true (some f) u a s0).uploadCalled = true) := by
  refine ⟨rfl, rfl, ?_, ?_⟩
  · intro f u a s0
    cases u with
    | error e => rfl
    | ok _ =>
      cases a with
      | error e => rfl
      | ok d => rfl
  · intro f u a s0
    cases u with
    | error e => rfl
    | ok _ =>
      cases a with
      | error e => rfl
      | ok d => rfl

/-- Witness for C8 at a concrete in-flight invocation. -/
theorem inflight_guard_is_button_only_witness :
    handleUpload true (some ⟨"report.csv"⟩) (Except.ok ()) (Except.ok "analysis-json") none
      = handleUpload false (some ⟨"report.csv"⟩) (Except.ok ()) (Except.ok "analysis-json") none
    ∧ (handleUpload true (some ⟨"report.csv"⟩) (Except.ok ())
        (Except.ok "analysis-json") none).uploadCalled = true :=
  ⟨inflight_guard_is_button_only.2.2.1 ⟨"report.csv"⟩ (Except.ok ()) (Except.ok "analysis-json") none,
   inflight_guard_is_button_only.2.2.2 ⟨"report.csv"⟩ (Except.ok ()) (Except.ok "analysis-json") none⟩
